import Mathlib

/-!
# Verification of the Pariksa spell checker (`src/Spell Checker/pariksa.py`)

Shallow embedding of the Pariksa spell checker.  Python strings are
modelled as `List Char` (`Str`); the dynamically typed `input_data`
argument is modelled by the inductive `PyObj` covering the Python value
kinds the validation code distinguishes (strings, lists, and
representative non-string/non-list values with their truthiness).

All exceptions raised inside `pariksa.py` are Python `ValueError`s,
distinguished by their message; the spec's error taxonomy
(`InvalidInputError`, `InvalidConfigurationError`) is expressed here as
predicates over the raised message.  The dictionary loader and the
suggestion engine are not present in the repository's source file (the
file ends after `_validate_configuration`); they are modelled from the
spec, and each such definition is marked `Modelled from the spec:` in
its doc comment.
-/

/-- Python strings, as lists of characters. -/
abbrev Str := List Char

deriving instance DecidableEq for Except

/-- The ASCII whitespace characters stripped by Python's `str.strip()`
(Unicode whitespace is elided). -/
def isPySpace (c : Char) : Bool :=
  c == ' ' || c == '\t' || c == '\n' || c == '\r' || c == '\x0b' || c == '\x0c'

/-- Python `str.strip()`: remove leading and trailing whitespace. -/
def pyStrip (s : Str) : Str :=
  ((s.dropWhile isPySpace).reverse.dropWhile isPySpace).reverse

/-- Python values, covering the kinds `_validate_input` distinguishes:
strings, lists, and non-string/non-list values (`None`, ints, bools)
with their Python truthiness. -/
inductive PyObj where
  | pyStr (s : Str)
  | pyList (xs : List PyObj)
  | pyNone
  | pyInt (n : Int)
  | pyBool (b : Bool)

/-- Python truthiness (`if not input_data`): empty strings and lists,
`None`, `0` and `False` are falsy. -/
def truthy : PyObj → Bool
  | .pyStr s => !s.isEmpty
  | .pyList xs => !xs.isEmpty
  | .pyNone => false
  | .pyInt n => n != 0
  | .pyBool b => b

/-- `isinstance(input_data, str)`. -/
def isStr : PyObj → Bool
  | .pyStr _ => true
  | _ => false

/-- `isinstance(input_data, list)`. -/
def isList : PyObj → Bool
  | .pyList _ => true
  | _ => false

/-- Errors of the checker.  `valueError` mirrors the Python `ValueError`s
raised in `pariksa.py`; `dictionaryLoadError` is the spec's
`DictionaryLoadError` for the (spec-modelled) dictionary loader. -/
inductive PyErr where
  | valueError (msg : Str)
  | dictionaryLoadError (msg : Str)
deriving DecidableEq

/-- `"Input data cannot be empty"`. -/
def emptyMsg : Str := "Input data cannot be empty".toList

/-- `"Word cannot be empty or just whitespace"`. -/
def wsMsg : Str := "Word cannot be empty or just whitespace".toList

/-- `"Word is too long (max 50 characters)"`. -/
def tooLongMsg : Str := "Word is too long (max 50 characters)".toList

/-- `"Too many words (max 1000)"`. -/
def tooManyMsg : Str := "Too many words (max 1000)".toList

/-- `"All words must be non-empty strings"`. -/
def allWordsMsg : Str := "All words must be non-empty strings".toList

/-- `"Some words are too long (max 50 characters)"`. -/
def someTooLongMsg : Str := "Some words are too long (max 50 characters)".toList

/-- `"Input must be a string or list of strings"`. -/
def typeMsg : Str := "Input must be a string or list of strings".toList

/-- `"max_suggestions must be between 0 and 10"`. -/
def msCfgMsg : Str := "max_suggestions must be between 0 and 10".toList

/-- `"max_distance must be between 1 and 5"`. -/
def mdCfgMsg : Str := "max_distance must be between 1 and 5".toList

/-- The messages of the `ValueError`s raised by `_validate_input`; per the
spec's taxonomy these are the `InvalidInputError`s. -/
def inputErrorMsgs : List Str :=
  [emptyMsg, wsMsg, tooLongMsg, tooManyMsg, allWordsMsg, someTooLongMsg, typeMsg]

/-- The spec's `InvalidInputError` category: a `ValueError` carrying one of
the input-validation messages. -/
def IsInvalidInputError : PyErr → Prop
  | .valueError m => m ∈ inputErrorMsgs
  | _ => False

/-- The spec's `InvalidConfigurationError` category: a `ValueError` carrying
one of the configuration-validation messages. -/
def IsInvalidConfigurationError : PyErr → Prop
  | .valueError m => m = msCfgMsg ∨ m = mdCfgMsg
  | _ => False

/-- The spec's `DictionaryLoadError` category. -/
def IsDictionaryLoadError : PyErr → Prop
  | .dictionaryLoadError _ => True
  | _ => False

/-- `isinstance(word, str) and word.strip()`: the per-element test of the
list branch of `_validate_input`. -/
def isNonemptyStrElem : PyObj → Bool
  | .pyStr s => !(pyStrip s).isEmpty
  | _ => false

/-- `len(word.strip()) > 50` for a batch element (only reached when every
element is a string, so the non-string case is arbitrary). -/
def stripTooLongElem : PyObj → Bool
  | .pyStr s => 50 < (pyStrip s).length
  | _ => false

/-- `Pariksa._validate_input` (`pariksa.py` lines 84-100), branch for branch:
the Python truthiness check, then the `str` branch, the `list` branch, and
the final type error. -/
def validateInput (d : PyObj) : Except PyErr Unit :=
  if truthy d = false then .error (.valueError emptyMsg)
  else
    match d with
    | .pyStr s =>
      if (pyStrip s).isEmpty then .error (.valueError wsMsg)
      else if 50 < (pyStrip s).length then .error (.valueError tooLongMsg)
      else .ok ()
    | .pyList xs =>
      if 1000 < xs.length then .error (.valueError tooManyMsg)
      else if !(xs.all isNonemptyStrElem) then .error (.valueError allWordsMsg)
      else if xs.any stripTooLongElem then .error (.valueError someTooLongMsg)
      else .ok ()
    | _ => .error (.valueError typeMsg)

/-- `Pariksa._validate_configuration` (`pariksa.py` lines 116-119).
Python ints are unbounded, so the arguments are `Int`. -/
def validateConfiguration (maxSuggestions maxDistance : Int) : Except PyErr Unit :=
  if maxSuggestions < 0 ∨ maxSuggestions > 10 then .error (.valueError msCfgMsg)
  else if maxDistance < 1 ∨ maxDistance > 5 then .error (.valueError mdCfgMsg)
  else .ok ()

/-- The body of `Pariksa.__init__` (`pariksa.py` lines 68-69): validate the
input, then validate the configuration.  The source file contains no
further statements in the constructor. -/
def pariksaInit (d : PyObj) (maxSuggestions maxDistance : Int) : Except PyErr Unit := do
  validateInput d
  validateConfiguration maxSuggestions maxDistance

/-- Modelled from the spec: the Levenshtein edit distance (minimum number of
single-character insertions, deletions and substitutions), which the source
file names but does not implement.  Mathlib's `levenshtein` with unit costs
is exactly this distance. -/
def lev (a b : Str) : Nat := levenshtein Levenshtein.defaultCost a b

/-- Lexicographic `≤` on strings, the deterministic tie-break chosen for the
suggestion ordering (the spec leaves the tie-break to the implementer but
requires it to be deterministic). -/
def strLeB : Str → Str → Bool
  | [], _ => true
  | _ :: _, [] => false
  | a :: as, b :: bs => if a < b then true else if b < a then false else strLeB as bs

/-- The suggestion ordering: ascending distance, ties broken
lexicographically on the candidate string. -/
def sugLE (p q : Str × Nat) : Prop :=
  p.2 < q.2 ∨ (p.2 = q.2 ∧ strLeB p.1 q.1 = true)

instance : DecidableRel sugLE := fun p q => by
  unfold sugLE; infer_instance

/-- Modelled from the spec: `suggest(word, dictionary, max_suggestions,
max_distance)` — compute every candidate's distance, discard candidates
beyond `max_distance`, sort by ascending distance with the lexicographic
tie-break, and return at most `max_suggestions` entries.  The suggestion
engine is absent from the source file. -/
def suggest (w : Str) (dict : List Str) (maxSuggestions maxDistance : Nat) :
    List (Str × Nat) :=
  (List.insertionSort sugLE
    ((dict.map (fun c => (c, lev w c))).filter (fun p => p.2 ≤ maxDistance))).take
    maxSuggestions

/-- The memoization cache for distance computations: an association list
from (word, candidate) pairs to distances. -/
abbrev Cache := List ((Str × Str) × Nat)

/-- Lookup in the memoization cache. -/
def cacheLookup : Cache → Str × Str → Option Nat
  | [], _ => none
  | (k, v) :: rest, q => if k = q then some v else cacheLookup rest q

/-- Modelled from the spec: memoized distance computation — return the
cached distance for the pair when present, otherwise compute it and insert
it into the cache. -/
def levCached (c : Cache) (a b : Str) : Nat × Cache :=
  match cacheLookup c (a, b) with
  | some d => (d, c)
  | none => (lev a b, ((a, b), lev a b) :: c)

/-- Every cache entry stores the true Levenshtein distance of its key. -/
def CacheValid (c : Cache) : Prop := ∀ e ∈ c, e.2 = lev e.1.1 e.1.2

/-- Modelled from the spec: the distance pass of the suggestion engine run
through the memoization cache, threading the cache over the dictionary. -/
def distancesCached (w : Str) (dict : List Str) (c : Cache) :
    List (Str × Nat) × Cache :=
  match dict with
  | [] => ([], c)
  | d :: ds =>
    let r := levCached c w d
    let rest := distancesCached w ds r.2
    ((d, r.1) :: rest.1, rest.2)

/-- Modelled from the spec: `suggest` computed through the memoization
cache; returns the suggestions together with the updated cache. -/
def suggestCached (w : Str) (dict : List Str) (maxSuggestions maxDistance : Nat)
    (c : Cache) : List (Str × Nat) × Cache :=
  let r := distancesCached w dict c
  ((List.insertionSort sugLE (r.1.filter (fun p => p.2 ≤ maxDistance))).take
    maxSuggestions, r.2)

/-- The observable state of the dictionary file at `dictionary_path`:
whether the path exists, its extension, whether its bytes decode as text,
and the word entries parsed from it when they do. -/
structure DictFile where
  pathExists : Bool
  ext : Str
  decodable : Bool
  entries : List Str

/-- The supported dictionary extensions (`SUPORTED_EXTENSIONS` in the
source: `.txt` and `.json`). -/
def supportedExtensions : List Str := [".txt".toList, ".json".toList]

/-- Modelled from the spec: normalization of the parsed entries — trim each
entry, skip blanks, lowercase unless case-sensitive, and deduplicate. -/
def normalizeWords (caseSensitive : Bool) (entries : List Str) : List Str :=
  (((entries.map pyStrip).filter (fun w => !w.isEmpty)).map
    (fun w => if caseSensitive then w else w.map Char.toLower)).dedup

/-- `"Dictionary file not found"`. -/
def missingMsg : Str := "Dictionary file not found".toList

/-- `"Unsupported dictionary format"`. -/
def extMsg : Str := "Unsupported dictionary format".toList

/-- `"Dictionary file could not be decoded"`. -/
def decodeMsg : Str := "Dictionary file could not be decoded".toList

/-- `"Dictionary is empty"`. -/
def emptyDictMsg : Str := "Dictionary is empty".toList

/-- Modelled from the spec: `load(path) -> WordSet` — fails with
`DictionaryLoadError` when the path does not exist, the extension is not
`.txt`/`.json`, the file cannot be decoded as text, or the normalized word
set is empty; otherwise returns the normalized word set.  The loader is
absent from the source file. -/
def loadDict (f : DictFile) (caseSensitive : Bool) : Except PyErr (List Str) :=
  if f.pathExists = false then .error (.dictionaryLoadError missingMsg)
  else if f.ext ∈ supportedExtensions then
    if f.decodable = false then .error (.dictionaryLoadError decodeMsg)
    else if normalizeWords caseSensitive f.entries = [] then
      .error (.dictionaryLoadError emptyDictMsg)
    else .ok (normalizeWords caseSensitive f.entries)
  else .error (.dictionaryLoadError extMsg)

/-- A constructed checker: the loaded normalized word set and the validated
configuration. -/
structure Checker where
  words : List Str
  caseSensitive : Bool
  maxSuggestions : Int
  maxDistance : Int
  enableFuzzyMatching : Bool
deriving DecidableEq

/-- Modelled from the spec: full checker construction — validate the input
and the configuration as `__init__` does, then build the Dictionary Word
Set from the dictionary source (the loading step is absent from the source
file) and store it in the checker for its lifetime. -/
def mkChecker (d : PyObj) (f : DictFile) (caseSensitive : Bool)
    (maxSuggestions maxDistance : Int) (enableFuzzyMatching : Bool) :
    Except PyErr Checker := do
  validateInput d
  validateConfiguration maxSuggestions maxDistance
  let ws ← loadDict f caseSensitive
  pure ⟨ws, caseSensitive, maxSuggestions, maxDistance, enableFuzzyMatching⟩

/-! ## Helper lemmas -/

theorem except_bind_ok {ε α β : Type} (a : α) (f : α → Except ε β) :
    Except.bind (Except.ok a) f = f a := rfl

theorem except_bind_error {ε α β : Type} (e : ε) (f : α → Except ε β) :
    Except.bind (Except.error e) f = (Except.error e : Except ε β) := rfl

/-- `pariksaInit` unfolded to its monadic bind. -/
theorem pariksaInit_def (d : PyObj) (ms md : Int) :
    pariksaInit d ms md =
      Except.bind (validateInput d) (fun _ => validateConfiguration ms md) := rfl

/-- `mkChecker` unfolded to its monadic binds. -/
theorem mkChecker_def (d : PyObj) (f : DictFile) (cs : Bool) (ms md : Int) (fz : Bool) :
    mkChecker d f cs ms md fz =
      Except.bind (validateInput d) (fun _ =>
        Except.bind (validateConfiguration ms md) (fun _ =>
          Except.bind (loadDict f cs) (fun ws =>
            Except.ok ⟨ws, cs, ms, md, fz⟩))) := rfl

/-- Stripping never lengthens a string. -/
theorem length_pyStrip_le (s : Str) : (pyStrip s).length ≤ s.length := by
  unfold pyStrip
  calc ((s.dropWhile isPySpace).reverse.dropWhile isPySpace).reverse.length
      = ((s.dropWhile isPySpace).reverse.dropWhile isPySpace).length :=
        List.length_reverse _
    _ ≤ (s.dropWhile isPySpace).reverse.length :=
        (List.dropWhile_sublist _).length_le
    _ = (s.dropWhile isPySpace).length := List.length_reverse _
    _ ≤ s.length := (List.dropWhile_sublist _).length_le

/-- Every error produced by `_validate_input` is one of the
input-validation `ValueError`s, i.e. an `InvalidInputError` of the spec's
taxonomy. -/
theorem validateInput_error_isInputError (d : PyObj) (e : PyErr)
    (h : validateInput d = .error e) : IsInvalidInputError e := by
  cases d <;> simp only [validateInput] at h <;> split_ifs at h <;>
    injection h with h' <;> subst h' <;>
    simp [IsInvalidInputError, inputErrorMsgs]

/-- The lexicographic tie-break is total. -/
theorem strLeB_total (a b : Str) : strLeB a b = true ∨ strLeB b a = true := by
  induction a generalizing b with
  | nil => left; rfl
  | cons x xs ih =>
    cases b with
    | nil => right; rfl
    | cons y ys =>
      by_cases hxy : x < y
      · left; simp [strLeB, hxy]
      · by_cases hyx : y < x
        · right; simp [strLeB, hyx]
        · rcases ih ys with h | h
          · left; simp [strLeB, hxy, hyx, h]
          · right; simp [strLeB, hxy, hyx, h]

/-- The lexicographic tie-break is transitive. -/
theorem strLeB_trans (a b c : Str) (hab : strLeB a b = true)
    (hbc : strLeB b c = true) : strLeB a c = true := by
  induction a generalizing b c with
  | nil => rfl
  | cons x xs ih =>
    cases b with
    | nil => simp [strLeB] at hab
    | cons y ys =>
      cases c with
      | nil => simp [strLeB] at hbc
      | cons z zs =>
        simp only [strLeB] at hab hbc ⊢
        by_cases hxy : x < y
        · by_cases hyz : y < z
          · simp [lt_trans hxy hyz]
          · by_cases hzy : z < y
            · simp [hyz, hzy] at hbc
            · have : y = z := le_antisymm (not_lt.mp hzy) (not_lt.mp hyz)
              subst this
              simp [hxy]
        · by_cases hyx : y < x
          · simp [hxy, hyx] at hab
          · have : x = y := le_antisymm (not_lt.mp hyx) (not_lt.mp hxy)
            subst this
            simp only [lt_irrefl, if_neg, if_false, ite_self] at hab
            by_cases hxz : x < z
            · simp [hxz]
            · by_cases hzx : z < x
              · simp [hxz, hzx] at hbc
              · simp only [hxz, hzx, if_neg, if_false, ite_self] at hbc ⊢
                exact ih ys zs hab hbc

instance : IsTotal (Str × Nat) sugLE :=
  ⟨fun p q => by
    unfold sugLE
    rcases Nat.lt_trichotomy p.2 q.2 with h | h | h
    · exact Or.inl (Or.inl h)
    · rcases strLeB_total p.1 q.1 with hs | hs
      · exact Or.inl (Or.inr ⟨h, hs⟩)
      · exact Or.inr (Or.inr ⟨h.symm, hs⟩)
    · exact Or.inr (Or.inl h)⟩

instance : IsTrans (Str × Nat) sugLE :=
  ⟨fun p q r hpq hqr => by
    unfold sugLE at hpq hqr ⊢
    rcases hpq with h1 | ⟨h1, hs1⟩
    · rcases hqr with h2 | ⟨h2, _⟩
      · exact Or.inl (lt_trans h1 h2)
      · exact Or.inl (h2 ▸ h1)
    · rcases hqr with h2 | ⟨h2, hs2⟩
      · exact Or.inl (h1 ▸ h2)
      · exact Or.inr ⟨h1.trans h2, strLeB_trans _ _ _ hs1 hs2⟩⟩

/-- The suggestion ordering implies ascending distance. -/
theorem sugLE_dist_le {p q : Str × Nat} (h : sugLE p q) : p.2 ≤ q.2 := by
  rcases h with h | ⟨h, _⟩
  · exact le_of_lt h
  · exact le_of_eq h

/-- A hit in a valid cache returns the true distance. -/
theorem cacheLookup_valid {c : Cache} (h : CacheValid c) (k : Str × Str)
    {v : Nat} (hl : cacheLookup c k = some v) : v = lev k.1 k.2 := by
  induction c with
  | nil => cases hl
  | cons e rest ih =>
    obtain ⟨ke, ve⟩ := e
    unfold cacheLookup at hl
    split_ifs at hl with hk
    · injection hl with hl'
      have hv := h (ke, ve) (List.mem_cons_self _ _)
      exact hk ▸ hl' ▸ hv
    · exact ih (fun e' he' => h e' (List.mem_cons_of_mem _ he')) hl

/-- Memoized distance computation is correct and preserves cache
validity. -/
theorem levCached_spec (c : Cache) (h : CacheValid c) (a b : Str) :
    (levCached c a b).1 = lev a b ∧ CacheValid (levCached c a b).2 := by
  unfold levCached
  cases hl : cacheLookup c (a, b) with
  | none =>
    refine ⟨rfl, fun e he => ?_⟩
    rcases List.mem_cons.mp he with rfl | he'
    · rfl
    · exact h e he'
  | some v => exact ⟨cacheLookup_valid h (a, b) hl, h⟩

/-- The cached distance pass computes exactly the distance map and
preserves cache validity. -/
theorem distancesCached_spec (w : Str) (dict : List Str) (c : Cache)
    (h : CacheValid c) :
    (distancesCached w dict c).1 = dict.map (fun d => (d, lev w d)) ∧
      CacheValid (distancesCached w dict c).2 := by
  induction dict generalizing c with
  | nil => exact ⟨rfl, h⟩
  | cons d ds ih =>
    have h1 := levCached_spec c h w d
    have h2 := ih (levCached c w d).2 h1.2
    unfold distancesCached
    exact ⟨by simp only [List.map_cons, h1.1, h2.1], h2.2⟩

/-- `suggestCached` computes exactly `suggest` from any valid cache and
preserves cache validity. -/
theorem suggestCached_spec (w : Str) (dict : List Str) (ms md : Nat)
    (c : Cache) (h : CacheValid c) :
    (suggestCached w dict ms md c).1 = suggest w dict ms md ∧
      CacheValid (suggestCached w dict ms md c).2 := by
  have hd := distancesCached_spec w dict c h
  refine ⟨?_, hd.2⟩
  show (List.insertionSort sugLE
      ((distancesCached w dict c).1.filter (fun p => p.2 ≤ md))).take ms = _
  rw [hd.1]
  rfl

/-! ## Claim theorems -/

/-- Claim C1: for every configuration with `max_suggestions` in [0,10] and
`max_distance` in [1,5] (and valid input data), constructing a Pariksa
checker succeeds; for every `max_suggestions` outside [0,10] or
`max_distance` outside [1,5], construction fails with
`InvalidConfigurationError` — the out-of-range value is never silently
clamped. -/
theorem C1_config_validation (input : PyObj) (ms md : Int)
    (hin : validateInput input = .ok ()) :
    ((0 ≤ ms ∧ ms ≤ 10) ∧ (1 ≤ md ∧ md ≤ 5) →
      pariksaInit input ms md = .ok ()) ∧
    (¬((0 ≤ ms ∧ ms ≤ 10) ∧ (1 ≤ md ∧ md ≤ 5)) →
      ∃ e, pariksaInit input ms md = .error e ∧
        IsInvalidConfigurationError e) := by
  have hrw : pariksaInit input ms md = validateConfiguration ms md := by
    rw [pariksaInit_def, hin, except_bind_ok]
  constructor
  · rintro ⟨⟨h1, h2⟩, ⟨h3, h4⟩⟩
    have e1 : ¬(ms < 0 ∨ ms > 10) := by omega
    have e2 : ¬(md < 1 ∨ md > 5) := by omega
    rw [hrw]
    simp [validateConfiguration, e1, e2]
  · intro hout
    by_cases hms : ms < 0 ∨ ms > 10
    · refine ⟨.valueError msCfgMsg, ?_, Or.inl rfl⟩
      rw [hrw]
      simp [validateConfiguration, hms]
    · have hmd : md < 1 ∨ md > 5 := by omega
      refine ⟨.valueError mdCfgMsg, ?_, Or.inr rfl⟩
      rw [hrw]
      simp [validateConfiguration, hms, hmd]

/-- Witness for C1: a valid word with configuration (3, 2) constructs, and
with configuration (11, 2) fails with the configuration error. -/
theorem C1_witness :
    pariksaInit (.pyStr "ae".toList) 3 2 = .ok () ∧
    (∃ e, pariksaInit (.pyStr "ae".toList) 11 2 = .error e ∧
      IsInvalidConfigurationError e) :=
  ⟨(C1_config_validation (.pyStr "ae".toList) 3 2 (by decide)).1 (by decide),
   (C1_config_validation (.pyStr "ae".toList) 11 2 (by decide)).2 (by decide)⟩

/-- Claim C2, counterexample: the claim says every single-word input longer
than 50 characters fails validation, but `_validate_input` measures the
word after `strip()`: this 51-character word (a leading space plus fifty
`a`s) passes validation. -/
theorem C2_counterexample :
    (' ' :: List.replicate 50 'a').length = 51 ∧
    validateInput (.pyStr (' ' :: List.replicate 50 'a')) = .ok () :=
  ⟨by decide, by decide⟩

/-- Claim C2 (amended): for every single-word input that is empty,
whitespace-only, or whose whitespace-stripped form is longer than 50
characters, input validation fails with `InvalidInputError`; the check
consults no dictionary (it takes none). -/
theorem C2_single_word_validation (s : Str)
    (h : s = [] ∨ pyStrip s = [] ∨ 50 < (pyStrip s).length) :
    ∃ e, validateInput (.pyStr s) = .error e ∧ IsInvalidInputError e := by
  by_cases hnil : s.isEmpty = true
  · refine ⟨.valueError emptyMsg, ?_, ?_⟩
    · simp [validateInput, truthy, hnil]
    · simp [IsInvalidInputError, inputErrorMsgs]
  · by_cases hstrip : (pyStrip s).isEmpty = true
    · refine ⟨.valueError wsMsg, ?_, ?_⟩
      · simp [validateInput, truthy, hnil, hstrip]
      · simp [IsInvalidInputError, inputErrorMsgs]
    · have hlong : 50 < (pyStrip s).length := by
        rcases h with h | h | h
        · exact absurd (by simp [h]) hnil
        · exact absurd (by simp [h]) hstrip
        · exact h
      refine ⟨.valueError tooLongMsg, ?_, ?_⟩
      · simp [validateInput, truthy, hnil, hstrip, hlong]
      · simp [IsInvalidInputError, inputErrorMsgs]

/-- Witness for C2 (amended), at a word of 51 non-whitespace characters. -/
theorem C2_witness :
    ∃ e, validateInput (.pyStr (List.replicate 51 'a')) = .error e ∧
      IsInvalidInputError e :=
  C2_single_word_validation (List.replicate 51 'a')
    (Or.inr (Or.inr (by decide)))

set_option maxRecDepth 100000 in
/-- Claim C3, counterexample: the claim says a batch of exactly 1000 words
each a non-empty string of at most 50 characters passes validation, but a
batch of 1000 single-space words (each a non-empty one-character string)
is rejected by `_validate_input`, whose per-element check requires
`word.strip()` to be truthy. -/
theorem C3_counterexample :
    (List.replicate 1000 (PyObj.pyStr [' '])).length = 1000 ∧
    (List.replicate 1000 (PyObj.pyStr [' '])).all
      (fun w =>
        match w with
        | .pyStr s => !s.isEmpty && s.length ≤ 50
        | _ => false) = true ∧
    validateInput (.pyList (List.replicate 1000 (PyObj.pyStr [' ']))) =
      .error (.valueError allWordsMsg) :=
  ⟨by decide, by decide, by decide⟩

/-- Claim C3 (amended): every batch of more than 1000 words fails
validation with `InvalidInputError`; a batch of exactly 1000 words, each a
string with non-whitespace content and of at most 50 characters, passes
validation. -/
theorem C3_batch_validation (xs : List PyObj) (ws : List Str)
    (hlen : ws.length = 1000)
    (hws : ∀ w ∈ ws, (pyStrip w).isEmpty = false ∧ w.length ≤ 50) :
    (1000 < xs.length →
      ∃ e, validateInput (.pyList xs) = .error e ∧ IsInvalidInputError e) ∧
    validateInput (.pyList (ws.map .pyStr)) = .ok () := by
  constructor
  · intro hx
    have hne : xs.isEmpty = false := by
      cases xs with
      | nil => simp at hx
      | cons a as => rfl
    refine ⟨.valueError tooManyMsg, ?_, ?_⟩
    · simp [validateInput, truthy, hne, hx]
    · simp [IsInvalidInputError, inputErrorMsgs]
  · have hne : (ws.map PyObj.pyStr).isEmpty = false := by
      cases ws with
      | nil => simp at hlen
      | cons a as => rfl
    have hall : (ws.map PyObj.pyStr).all isNonemptyStrElem = true := by
      rw [List.all_eq_true]
      intro w hw
      rcases List.mem_map.mp hw with ⟨v, hv, rfl⟩
      simpa [isNonemptyStrElem] using (hws v hv).1
    have hany : (ws.map PyObj.pyStr).any stripTooLongElem = false := by
      rw [List.any_eq_false]
      intro w hw
      rcases List.mem_map.mp hw with ⟨v, hv, rfl⟩
      have hv50 : (pyStrip v).length ≤ 50 :=
        le_trans (length_pyStrip_le v) (hws v hv).2
      simpa [stripTooLongElem] using hv50
    simp [validateInput, truthy, hne, hlen, hall, hany]

/-- Witness for C3: a batch of 1001 copies of `"a"` fails, a batch of 1000
copies of `"a"` passes. -/
theorem C3_witness :
    (∃ e, validateInput (.pyList (List.replicate 1001 (PyObj.pyStr ['a']))) =
        .error e ∧ IsInvalidInputError e) ∧
    validateInput (.pyList ((List.replicate 1000 ['a']).map .pyStr)) = .ok () := by
  have hws : ∀ w ∈ List.replicate 1000 ['a'],
      (pyStrip w).isEmpty = false ∧ w.length ≤ 50 := by
    intro w hw
    rw [List.eq_of_mem_replicate hw]
    exact ⟨by decide, by decide⟩
  have h := C3_batch_validation (List.replicate 1001 (PyObj.pyStr ['a']))
    (List.replicate 1000 ['a']) (by rw [List.length_replicate]) hws
  refine ⟨h.1 ?_, h.2⟩
  rw [List.length_replicate]
  omega

/-- Claim C9: `__init__` validates the input before the configuration: when
the input is invalid, construction reports the input-validation error even
if the configuration is also out of range. -/
theorem C9_input_error_priority (input : PyObj) (ms md : Int) (e : PyErr)
    (hin : validateInput input = .error e)
    (_hcfg : ¬((0 ≤ ms ∧ ms ≤ 10) ∧ (1 ≤ md ∧ md ≤ 5))) :
    pariksaInit input ms md = .error e ∧ IsInvalidInputError e :=
  ⟨by rw [pariksaInit_def, hin, except_bind_error],
   validateInput_error_isInputError input e hin⟩

/-- Witness for C9: a `None` input together with `max_suggestions = 11`
reports the input error, not the configuration error. -/
theorem C9_witness :
    pariksaInit .pyNone 11 2 = .error (.valueError emptyMsg) ∧
    IsInvalidInputError (.valueError emptyMsg) :=
  C9_input_error_priority .pyNone 11 2 (.valueError emptyMsg)
    (by decide) (by decide)

/-- Claim C10: every falsy input (of any type: `None`, `0`, `False`, empty
string, empty list) is rejected by the initial emptiness check with the
`"Input data cannot be empty"` error before the type check runs; every
truthy value that is neither a string nor a list is rejected with the
type-error `ValueError`; hence construction never succeeds for a
non-string, non-list input. -/
theorem C10_type_check (d : PyObj) :
    (truthy d = false → validateInput d = .error (.valueError emptyMsg)) ∧
    (isStr d = false → isList d = false → truthy d = true →
      validateInput d = .error (.valueError typeMsg)) ∧
    (isStr d = false → isList d = false → ∀ ms md : Int,
      ∃ e, pariksaInit d ms md = .error e ∧ IsInvalidInputError e) := by
  refine ⟨?_, ?_, ?_⟩
  · intro h
    simp [validateInput, h]
  · intro hs hl ht
    cases d <;> simp_all [isStr, isList, validateInput, truthy]
  · intro hs hl ms md
    cases ht : truthy d with
    | false =>
      refine ⟨.valueError emptyMsg, ?_, ?_⟩
      · have hv0 : validateInput d = .error (.valueError emptyMsg) := by
          simp [validateInput, ht]
        rw [pariksaInit_def, hv0, except_bind_error]
      · simp [IsInvalidInputError, inputErrorMsgs]
    | true =>
      have hv : validateInput d = .error (.valueError typeMsg) := by
        cases d <;> simp_all [isStr, isList, validateInput, truthy]
      refine ⟨.valueError typeMsg, ?_, ?_⟩
      · rw [pariksaInit_def, hv, except_bind_error]
      · simp [IsInvalidInputError, inputErrorMsgs]

/-- Witness for C10: `0` hits the emptiness check, `7` hits the type check,
and construction with `7` fails with an input error. -/
theorem C10_witness :
    validateInput (.pyInt 0) = .error (.valueError emptyMsg) ∧
    validateInput (.pyInt 7) = .error (.valueError typeMsg) ∧
    ∃ e, pariksaInit (.pyInt 7) 3 2 = .error e ∧ IsInvalidInputError e :=
  ⟨(C10_type_check (.pyInt 0)).1 (by decide),
   (C10_type_check (.pyInt 7)).2.1 (by decide) (by decide) (by decide),
   (C10_type_check (.pyInt 7)).2.2 (by decide) (by decide) 3 2⟩

/-- Claim C4 (spec-modelled construction): when checker construction
succeeds, the checker holds exactly the word set loaded and normalized from
the dictionary source, together with its configuration; the set is built
once, at construction. -/
theorem C4_checker_holds_wordset (d : PyObj) (f : DictFile) (cs : Bool)
    (ms md : Int) (fz : Bool) (c : Checker)
    (h : mkChecker d f cs ms md fz = .ok c) :
    loadDict f cs = .ok c.words ∧ c.words = normalizeWords cs f.entries ∧
    c.caseSensitive = cs ∧ c.maxSuggestions = ms ∧ c.maxDistance = md ∧
    c.enableFuzzyMatching = fz := by
  rw [mkChecker_def] at h
  cases hv : validateInput d <;> rw [hv] at h
  case error e => rw [except_bind_error] at h; cases h
  case ok u =>
  rw [except_bind_ok] at h
  cases hc : validateConfiguration ms md <;> rw [hc] at h
  case error e => rw [except_bind_error] at h; cases h
  case ok u' =>
  rw [except_bind_ok] at h
  cases hl : loadDict f cs <;> rw [hl] at h
  case error e => rw [except_bind_error] at h; cases h
  case ok ws =>
  rw [except_bind_ok] at h
  injection h with h'
  subst h'
  refine ⟨rfl, ?_, rfl, rfl, rfl, rfl⟩
  unfold loadDict at hl
  split_ifs at hl <;> injection hl with hl' <;> exact hl'.symm

/-- Witness for C4, at a one-word `.txt` dictionary. -/
theorem C4_witness :
    loadDict ⟨true, ".txt".toList, true, [['a']]⟩ false =
      .ok (Checker.mk [['a']] false 3 2 true).words ∧
    (Checker.mk [['a']] false 3 2 true).words =
      normalizeWords false [['a']] ∧
    (Checker.mk [['a']] false 3 2 true).caseSensitive = false ∧
    (Checker.mk [['a']] false 3 2 true).maxSuggestions = 3 ∧
    (Checker.mk [['a']] false 3 2 true).maxDistance = 2 ∧
    (Checker.mk [['a']] false 3 2 true).enableFuzzyMatching = true :=
  C4_checker_holds_wordset (.pyStr ['a']) ⟨true, ".txt".toList, true, [['a']]⟩
    false 3 2 true (Checker.mk [['a']] false 3 2 true) (by decide)

/-- Claim C5 (spec-modelled engine): `suggest` returns an ordered sequence
of (candidate, distance) pairs: at most `max_suggestions` of them, sorted
by ascending distance with the deterministic lexicographic tie-break, each
candidate drawn from the dictionary, paired with its true Levenshtein
distance, and within `max_distance`. -/
theorem C5_suggest_spec (w : Str) (dict : List Str) (ms md : Nat) :
    (suggest w dict ms md).length ≤ ms ∧
    (suggest w dict ms md).Pairwise sugLE ∧
    (suggest w dict ms md).Pairwise (fun p q => p.2 ≤ q.2) ∧
    ∀ p ∈ suggest w dict ms md, p.1 ∈ dict ∧ p.2 = lev w p.1 ∧ p.2 ≤ md := by
  have hs : (List.insertionSort sugLE
      ((dict.map (fun c => (c, lev w c))).filter
        (fun p => p.2 ≤ md))).Pairwise sugLE :=
    List.sorted_insertionSort sugLE _
  have hpw : (suggest w dict ms md).Pairwise sugLE :=
    List.Pairwise.sublist (List.take_sublist _ _) hs
  refine ⟨List.length_take_le ms _, hpw, hpw.imp (fun h => sugLE_dist_le h), ?_⟩
  intro p hp
  have hp1 : p ∈ List.insertionSort sugLE
      ((dict.map (fun c => (c, lev w c))).filter (fun p => p.2 ≤ md)) :=
    (List.take_sublist _ _).subset hp
  have hp2 : p ∈ (dict.map (fun c => (c, lev w c))).filter
      (fun p => p.2 ≤ md) :=
    (List.perm_insertionSort sugLE _).mem_iff.mp hp1
  obtain ⟨hpm, hple⟩ := List.mem_filter.mp hp2
  rcases List.mem_map.mp hpm with ⟨c, hc, rfl⟩
  exact ⟨hc, rfl, by simpa using hple⟩

/-- Witness for C5, at the dictionary `{"a"}` and query `"ab"`. -/
theorem C5_witness :
    (suggest "ab".toList [['a']] 3 1).length ≤ 3 ∧
    ((['a'], 1).1 ∈ [['a']] ∧ (['a'], 1).2 = lev "ab".toList (['a'], 1).1 ∧
      (['a'], 1).2 ≤ 1) :=
  ⟨(C5_suggest_spec "ab".toList [['a']] 3 1).1,
   (C5_suggest_spec "ab".toList [['a']] 3 1).2.2.2 (['a'], 1) (by decide)⟩

/-- Claim C6 (spec-modelled engine): the suggestion engine never fails —
`suggest` is a total function into sequences — and with `max_suggestions`
equal to 0 it returns the empty sequence for every query word and
dictionary. -/
theorem C6_zero_suggestions (w : Str) (dict : List Str) (md : Nat) :
    suggest w dict 0 md = [] := by
  simp [suggest]

/-- Claim C7 (spec-modelled loader): `load` fails with
`DictionaryLoadError` exactly when the path does not exist, the extension
is unsupported, the file cannot be decoded as text, or the normalized word
set is empty; in particular an empty dictionary is never silently
accepted. -/
theorem C7_loadDict_spec (f : DictFile) (cs : Bool) :
    (∃ e, loadDict f cs = .error e ∧ IsDictionaryLoadError e) ↔
      (f.pathExists = false ∨ f.ext ∉ supportedExtensions ∨
        f.decodable = false ∨ normalizeWords cs f.entries = []) := by
  unfold loadDict
  split_ifs with h1 h2 h3 h4
  · exact iff_of_true ⟨_, rfl, trivial⟩ (Or.inl h1)
  · exact iff_of_true ⟨_, rfl, trivial⟩ (Or.inr (Or.inr (Or.inl h3)))
  · exact iff_of_true ⟨_, rfl, trivial⟩ (Or.inr (Or.inr (Or.inr h4)))
  · refine iff_of_false ?_ ?_
    · rintro ⟨e, he, -⟩
      cases he
    · rw [not_or, not_or, not_or]
      exact ⟨h1, fun hn => hn h2, h3, h4⟩
  · exact iff_of_true ⟨_, rfl, trivial⟩ (Or.inr (Or.inl h2))

/-- Claim C8 (spec-modelled engine): `suggest` is deterministic across
repeated calls through the memoization cache: a second call with the same
query, dictionary and configuration — on the cache the first call left —
returns the identical ordered result, which is exactly the cache-free
`suggest`. -/
theorem C8_suggest_idempotent (w : Str) (dict : List Str) (ms md : Nat)
    (c : Cache) (h : CacheValid c) :
    (suggestCached w dict ms md ((suggestCached w dict ms md c).2)).1 =
      (suggestCached w dict ms md c).1 ∧
    (suggestCached w dict ms md c).1 = suggest w dict ms md := by
  have h1 := suggestCached_spec w dict ms md c h
  have h2 := suggestCached_spec w dict ms md (suggestCached w dict ms md c).2 h1.2
  exact ⟨h2.1.trans h1.1.symm, h1.1⟩

/-- Witness for C8, from the empty cache. -/
theorem C8_witness :
    (suggestCached "ab".toList [['a']] 3 1
        ((suggestCached "ab".toList [['a']] 3 1 []).2)).1 =
      (suggestCached "ab".toList [['a']] 3 1 []).1 ∧
    (suggestCached "ab".toList [['a']] 3 1 []).1 =
      suggest "ab".toList [['a']] 3 1 :=
  C8_suggest_idempotent "ab".toList [['a']] 3 1 []
    (fun e he => absurd he (List.not_mem_nil e))
